import Mathlib

/-!
Verification of the lppy launchpad driver against its specification.

The definitions below are a shallow embedding of the Python sources:
`lppy/enums.py` (RGB colors, scaling, hex parsing), `lppy/midi.py`
(inbound message construction, input-device queues), `lppy/message.py`
(the action-tagged message used by the layout), `lppy/layout.py`
(buttons and the dispatch callback), and the per-model `led_on`
encoders in `lppy/models/launchpad.py`, `lppy/models/pro.py` and
`lppy/models/mini_mk3.py`.  Python `int` is embedded as `Int`, Python
`float` arithmetic as exact rational arithmetic (`ℚ`) with
truncation-toward-zero for `int(...)`, strings as `List Char`, raised
exceptions as `Except`, and wire I/O as an emitted list of operations.
-/

/-- Truncation toward zero, the behaviour of Python `int()` applied to a
float, modelled over exact rationals. -/
def pyTrunc (q : ℚ) : Int :=
  q.num.tdiv q.den

/-- RGB color from `lppy/enums.py`: three integer channels, defaults 0. -/
structure RGB where
  r : Int := 0
  g : Int := 0
  b : Int := 0
deriving DecidableEq, Repr

/-- Embedding of `RGB.scale` from `lppy/enums.py`:
`int(((channel / 255.0) * (maximum - minimum)) + minimum)` per channel. -/
def RGB.scale (c : RGB) (minimum maximum : Int) : RGB where
  r := pyTrunc ((c.r : ℚ) / 255 * ((maximum : ℚ) - (minimum : ℚ)) + (minimum : ℚ))
  g := pyTrunc ((c.g : ℚ) / 255 * ((maximum : ℚ) - (minimum : ℚ)) + (minimum : ℚ))
  b := pyTrunc ((c.b : ℚ) / 255 * ((maximum : ℚ) - (minimum : ℚ)) + (minimum : ℚ))

/-- Characters stripped by Python `str.strip()` (the ASCII whitespace
subset relevant to the embedded strings): space (code point 32), and the
range tab..carriage-return (code points 9..13). -/
def isPySpace (c : Char) : Bool :=
  c.toNat == 32 || (9 ≤ c.toNat && c.toNat ≤ 13)

/-- Python `str.strip()`: drop whitespace from both ends. -/
def pyStrip (s : List Char) : List Char :=
  ((s.dropWhile isPySpace).reverse.dropWhile isPySpace).reverse

/-- Membership in Python `string.hexdigits`, by code point: the decimal
digits (48..57), the lowercase hex letters (97..102), and the uppercase
hex letters (65..70). -/
def isPyHexDigit (c : Char) : Bool :=
  (48 ≤ c.toNat && c.toNat ≤ 57) || (97 ≤ c.toNat && c.toNat ≤ 102) ||
    (65 ≤ c.toNat && c.toNat ≤ 70)

/-- Value of one hexadecimal digit, as computed by Python `int(s, 16)`
for a digit of `string.hexdigits`. -/
def hexVal (c : Char) : Int :=
  if c.isDigit then (c.toNat : Int) - 48
  else if 'a' ≤ c then (c.toNat : Int) - 87
  else (c.toNat : Int) - 55

/-- Python `int(s, 16)` on a list of hex digits (big-endian). -/
def hexByte (l : List Char) : Int :=
  l.foldl (fun a c => 16 * a + hexVal c) 0

/-- Embedding of `RGB.__check_color_string` from `lppy/enums.py`: strip,
then accept either `#` plus six hex digits (length 7, indices 1..6 hex,
returned without the `#`) or six hex digits.  Anything else raises
`ValueError`, modelled as `Except.error`. -/
def checkColorString (s : List Char) : Except String (List Char) :=
  let color := pyStrip s
  if color.length == 7 && color.headD ' ' == '#' && (color.drop 1).all isPyHexDigit then
    Except.ok (color.drop 1)
  else if color.length == 6 && color.all isPyHexDigit then
    Except.ok color
  else
    Except.error "Invalid color string"

/-- Embedding of `RGB.parse` from `lppy/enums.py`: check the string, then
read channels from `color[:2]`, `color[2:4]`, `color[4:]` in base 16. -/
def RGB.parse (s : List Char) : Except String RGB :=
  match checkColorString s with
  | .error e => .error e
  | .ok color =>
      .ok { r := hexByte (color.take 2)
            g := hexByte ((color.drop 2).take 2)
            b := hexByte (color.drop 4) }

/-- Truth of `Except` success, used to phrase "does not raise". -/
def exceptIsOk : Except ε α → Bool
  | .ok _ => true
  | .error _ => false

/-- Scroll direction from `lppy/enums.py`. -/
inductive Scroll
  | none
  | left
  | right
deriving DecidableEq, Repr

/-- Button state from `lppy/enums.py` (`ButtonState`). -/
inductive ButtonState
  | on
  | off
  | err
  | no_change
deriving DecidableEq, Repr

namespace Midi

/-- Message state from `lppy/midi.py` (`Message.State`). -/
inductive State
  | off
  | on
deriving DecidableEq, Repr

/-- Inbound message from `lppy/midi.py`: `Message.__init__` derives the
state as `on` when `intensity == 127`, otherwise `off`. -/
structure Message where
  state : State
  n : Int
  intensity : Int
  diff : ℚ
deriving DecidableEq, Repr

/-- Embedding of `Message.__init__` from `lppy/midi.py`. -/
def Message.make (n : Int) (intensity : Int := 0) (diff : ℚ := 0) : Message where
  state := if intensity == 127 then State.on else State.off
  n := n
  intensity := intensity
  diff := diff

/-- Embedding of the `Message.on` property from `lppy/midi.py`. -/
def Message.on (m : Message) : Bool :=
  m.state == State.on

/-- Embedding of the `Message.off` property from `lppy/midi.py`. -/
def Message.off (m : Message) : Bool :=
  m.state == State.off

end Midi

namespace Msg

/-- Action kind from `lppy/message.py` (`Action`). -/
inductive Action
  | press
  | release
  | click
deriving DecidableEq, Repr

/-- Action-tagged message from `lppy/message.py`, the shape consumed by
`Layout.callback` in `lppy/layout.py` (which reads `message.n` and
`message.action`). -/
structure Message where
  action : Action
  code : Int
  n : Int
  intensity : Int := 0
  diff : ℚ := 0
deriving DecidableEq, Repr

end Msg

/-- Result of a button action, from `lppy/layout.py` (`Result`): optional
literal character (a Python string), optional text, display color, scroll
direction, wait interval. -/
structure Result where
  char : Option (List Char) := none
  text : Option (List Char) := none
  color : RGB := { r := 255 }
  scroll : Scroll := Scroll.none
  wait_ms : Int := 1000
deriving DecidableEq, Repr

/-- Wire-level and launchpad-level operations emitted by the embedded
code, in emission order.  `send` is `OutputDevice.send(stat, dat1, dat2)`
and `sysex` is `OutputDevice.send_sysex` (payload between the 0xF0/0xF7
frame bytes); the remaining constructors record the launchpad calls the
`Layout` makes (`led_on` by number, `led_all_off`, `write_char`,
`write_string`). -/
inductive Op
  | send (stat dat1 dat2 : Int)
  | sysex (data : List Int)
  | ledOn (n : Int) (color : RGB)
  | ledAllOff
  | writeChar (char : List Char) (color : RGB)
  | writeString (string : List Char) (color : RGB) (scroll : Scroll) (wait_ms : Int)
deriving DecidableEq, Repr

/-- Recognizer for a scroll-render operation in an emitted trace. -/
def Op.isWriteString : Op → Bool
  | .writeString _ _ _ _ => true
  | _ => false

/-- LED-selection error from `lppy/errors.py` (`LEDSelectionError`),
carrying the offending `n`, `x`, `y` arguments. -/
structure SelErr where
  n : Option Int
  x : Option Int
  y : Option Int
deriving DecidableEq, Repr

namespace Pro

/-- Embedding of `LaunchpadPro.led_on` from `lppy/models/pro.py`.  The
color is first scaled into 0..63; a flat index `n` outside 0..99, grid
coordinates outside 0..9, or a call supplying neither `n` nor both `x`
and `y`, raise `LEDSelectionError` before anything is sent; otherwise one
sysex message is sent whose address byte is `n`, respectively
`90 - 10*y + x`. -/
def led_on (color : RGB) (n x y : Option Int) : Except SelErr (List Op) :=
  match n with
  | some n' =>
      if n' < 0 ∨ n' > 99 then Except.error ⟨some n', x, y⟩
      else Except.ok [Op.sysex [0, 32, 41, 2, 16, 11, n',
        (color.scale 0 63).r, (color.scale 0 63).g, (color.scale 0 63).b]]
  | none =>
      match x, y with
      | some x', some y' =>
          if x' < 0 ∨ x' > 9 ∨ y' < 0 ∨ y' > 9 then Except.error ⟨none, some x', some y'⟩
          else Except.ok [Op.sysex [0, 32, 41, 2, 16, 11, 90 - 10 * y' + x',
            (color.scale 0 63).r, (color.scale 0 63).g, (color.scale 0 63).b]]
      | _, _ => Except.error ⟨none, x, y⟩

end Pro

namespace MiniMk3

/-- Embedding of `LaunchpadMiniMk3.led_on` from `lppy/models/mini_mk3.py`.
Identical control flow to the Pro variant, with the Mk3 sysex header
`[0, 32, 41, 2, 13, 3, 3]` before the address byte. -/
def led_on (color : RGB) (n x y : Option Int) : Except SelErr (List Op) :=
  match n with
  | some n' =>
      if n' < 0 ∨ n' > 99 then Except.error ⟨some n', x, y⟩
      else Except.ok [Op.sysex [0, 32, 41, 2, 13, 3, 3, n',
        (color.scale 0 63).r, (color.scale 0 63).g, (color.scale 0 63).b]]
  | none =>
      match x, y with
      | some x', some y' =>
          if x' < 0 ∨ x' > 9 ∨ y' < 0 ∨ y' > 9 then Except.error ⟨none, some x', some y'⟩
          else Except.ok [Op.sysex [0, 32, 41, 2, 13, 3, 3, 90 - 10 * y' + x',
            (color.scale 0 63).r, (color.scale 0 63).g, (color.scale 0 63).b]]
      | _, _ => Except.error ⟨none, x, y⟩

end MiniMk3

namespace Classic

/-- Embedding of `Launchpad._get_color` from `lppy/models/launchpad.py`:
clamp red and green to 0..3 and pack them as `red | green << 4`. -/
def get_color (color : RGB) : Int :=
  let red := max (min color.r 3) 0
  let green := max (min color.g 3) 0
  ((red.toNat.lor (green.toNat <<< 4)) : Nat)

/-- Embedding of `Launchpad.led_on` from `lppy/models/launchpad.py` (the
2-color Classic variant).  Flat indices 200..207 are sent as automap
control changes `send(176, n - 200 + 104, color)`; other flat indices
outside 0..120 raise; grid coordinates outside 0..8 raise; `y = 0`
addresses the automap row, other rows use `(y - 1) << 4 | x`; a call
supplying neither `n` nor both `x` and `y` raises. -/
def led_on (color : RGB) (n x y : Option Int) : Except SelErr (List Op) :=
  match n with
  | some n' =>
      if 199 < n' ∧ n' < 208 then Except.ok [Op.send 176 (n' - 200 + 104) (get_color color)]
      else if n' < 0 ∨ n' > 120 then Except.error ⟨some n', x, y⟩
      else Except.ok [Op.send 144 n' (get_color color)]
  | none =>
      match x, y with
      | some x', some y' =>
          if x' < 0 ∨ x' > 8 ∨ y' < 0 ∨ y' > 8 then Except.error ⟨none, some x', some y'⟩
          else if y' == 0 then Except.ok [Op.send 176 (x' + 104) (get_color color)]
          else Except.ok
            [Op.send 144 (((y' - 1).toNat <<< 4 |>.lor x'.toNat : Nat)) (get_color color)]
      | _, _ => Except.error ⟨none, x, y⟩

end Classic

/-- Button from `lppy/layout.py`: address `n`, the action kind it
responds to, its three configured colors, its current state, and the
bound callback (`Button.execute` / `Callback.__call__`), modelled as a
function from the incoming message to the optional `Result` the user
action returns. -/
structure Button where
  n : Int
  action : Msg.Action
  color_on : RGB
  color_off : RGB := {}
  color_err : RGB := { r := 255 }
  state : ButtonState := ButtonState.off
  exec : Msg.Message → Option Result

/-- Embedding of `Button.led_on` from `lppy/layout.py`: render the LED at
the button's address with the color selected by its current state.  The
source renders `color_on` in state `on` and `color_off` in states `off`
and `err`, and renders nothing for `no_change`. -/
def Button.ledOnOps (b : Button) : List Op :=
  match b.state with
  | ButtonState.on => [Op.ledOn b.n b.color_on]
  | ButtonState.off => [Op.ledOn b.n b.color_off]
  | ButtonState.err => [Op.ledOn b.n b.color_off]
  | ButtonState.no_change => []

/-- Embedding of `Button.set_state` from `lppy/layout.py`: store the new
state, then call `led_on`.  Returns the updated button and the emitted
operations. -/
def Button.set_state (b : Button) (state : ButtonState) : Button × List Op :=
  let b' := { b with state := state }
  (b', b'.ledOnOps)

/-- Embedding of `Layout.reset` from `lppy/layout.py`: optionally clear
all LEDs first, then re-render every button of the layout from its
current state. -/
def Layout.reset (buttons : List Button) (other_led_off : Bool := true) : List Op :=
  (if other_led_off then [Op.ledAllOff] else []) ++ buttons.flatMap Button.ledOnOps

/-- Embedding of `Layout.callback` from `lppy/layout.py`.  The layout's
buttons are kept in a dict keyed by address; lookup is modelled by
`List.find?` over the (unique-address) button list.  If no button is
bound to the message's address, or its action kind differs, nothing
happens.  Otherwise the bound action runs; a `None` result ends the
callback; a result with a non-`None` `char` renders that character and
resets without clearing; a result with a non-empty `text` renders the
scroll and then does a full reset; any other result just resets.  The
callback never changes any button's state (`set_state` is not called on
this path), so the button list is returned unchanged alongside the
emitted operations. -/
def Layout.callback (buttons : List Button) (message : Msg.Message) :
    List Button × List Op :=
  match buttons.find? (fun b => b.n == message.n) with
  | none => (buttons, [])
  | some button =>
      if button.action == message.action then
        match button.exec message with
        | none => (buttons, [])
        | some result =>
            match result.char with
            | some ch => (buttons, Op.writeChar ch result.color :: Layout.reset buttons false)
            | none =>
                match result.text with
                | some t =>
                    if t.isEmpty then (buttons, Layout.reset buttons true)
                    else
                      (buttons,
                        Op.writeString t result.color result.scroll result.wait_ms ::
                          Layout.reset buttons true)
                | none => (buttons, Layout.reset buttons true)
      else (buttons, [])

/-- Event alphabet for the `InputDevice` model from `lppy/midi.py`.  One
step is one atomic action of either the transport callback thread, the
worker thread, or the user thread: `arrive m` is `__callback` enqueueing
a recognized message on both internal queues; `take` is the worker's
`self.__callback_queue.get()`; `deliver` is the worker invoking the
registered callbacks on the message it took; `flushq` is `flush()`
clearing both queues; `consume` is `read()` popping the message queue. -/
inductive Ev
  | arrive (m : Int)
  | take
  | deliver
  | flushq
  | consume
deriving DecidableEq, Repr

/-- State of the `InputDevice` model: the two queues, the message the
worker is currently holding between `get()` and callback invocation, the
messages delivered to callbacks so far, and the messages returned by
`read()` so far. -/
structure PState where
  mq : List Int := []
  cq : List Int := []
  hold : Option Int := none
  delivered : List Int := []
  readMsgs : List Int := []
deriving DecidableEq, Repr

/-- One atomic step of the `InputDevice` model.  `flush()` clears the two
queues but does not touch the message the worker already took, which is
exactly what `InputDevice.flush` in `lppy/midi.py` does. -/
def pstep (s : PState) : Ev → PState
  | Ev.arrive m => { s with mq := s.mq ++ [m], cq := s.cq ++ [m] }
  | Ev.take =>
      match s.hold, s.cq with
      | none, m :: rest => { s with hold := some m, cq := rest }
      | _, _ => s
  | Ev.deliver =>
      match s.hold with
      | some m => { s with hold := none, delivered := s.delivered ++ [m] }
      | none => s
  | Ev.flushq => { s with mq := [], cq := [] }
  | Ev.consume =>
      match s.mq with
      | m :: rest => { s with mq := rest, readMsgs := s.readMsgs ++ [m] }
      | [] => s

/-- Run of the `InputDevice` model over a list of steps. -/
def prun (s : PState) (evs : List Ev) : PState :=
  evs.foldl pstep s

/-- Modelled from the spec: the spec-side well-formedness condition for a
hex color string, "6 hex digits, or '#' followed by 6 hex digits", to be
compared with the source-side `checkColorString`. -/
def SpecHexForm (c : List Char) : Prop :=
  (c.length = 6 ∧ ∀ d ∈ c, isPyHexDigit d = true) ∨
  (∃ rest, c = '#' :: rest ∧ rest.length = 6 ∧ ∀ d ∈ rest, isPyHexDigit d = true)

/-- Fixture: a result carrying the text "HI" (and the default red color),
as in the spec's dispatch example. -/
def resText : Result := { text := some "HI".toList }

/-- Fixture: a result carrying both a literal char and the text "HI". -/
def resCharText : Result := { char := some "A".toList, text := some "HI".toList }

/-- Fixture: a button at address 5 whose action returns `resText`. -/
def bText : Button where
  n := 5
  action := Msg.Action.click
  color_on := { g := 255 }
  state := ButtonState.on
  exec := fun _ => some resText

/-- Fixture: a button at address 5 whose action returns `resCharText`. -/
def bCharText : Button where
  n := 5
  action := Msg.Action.click
  color_on := { g := 255 }
  state := ButtonState.on
  exec := fun _ => some resCharText

/-- Fixture: a button at address 9 that never reacts. -/
def bOther : Button where
  n := 9
  action := Msg.Action.press
  color_on := { b := 255 }
  exec := fun _ => none

/-- Fixture: a button used to exhibit the `err`-state rendering. -/
def bErr : Button where
  n := 0
  action := Msg.Action.click
  color_on := { g := 255 }
  exec := fun _ => none

/-- Fixture layout with buttons at addresses 5 and 9. -/
def layoutFix : List Button := [bText, bOther]

/-- Fixture layout whose address-5 button returns both char and text. -/
def layoutCharFix : List Button := [bCharText, bOther]

/-- Fixture: a click message at address 5. -/
def msgClick5 : Msg.Message := { action := Msg.Action.click, code := 144, n := 5, intensity := 127 }

/-- Fixture: a click message at address 7, bound to no button. -/
def msgClick7 : Msg.Message := { action := Msg.Action.click, code := 144, n := 7, intensity := 127 }

/-! Helper lemmas: evaluating `pyTrunc` and `RGB.scale` through integer
division. -/

/-- Truncation of a nonnegative integer fraction is Euclidean division. -/
theorem pyTrunc_intCast_div_natCast (p : Int) (d : ℕ) (hp : 0 ≤ p) :
    pyTrunc ((p : ℚ) / (d : ℚ)) = p / (d : Int) := by
  have h0 : (0 : ℚ) ≤ (p : ℚ) / (d : ℚ) := by positivity
  unfold pyTrunc
  rw [Int.tdiv_eq_ediv (Rat.num_nonneg.mpr h0) (Int.natCast_nonneg _),
    ← Rat.floor_def, Rat.floor_intCast_div_natCast]

/-- One channel of `RGB.scale` as integer division, for a nonnegative
numerator. -/
theorem pyTrunc_scale_formula (a m M : Int) (h : 0 ≤ a * (M - m) + 255 * m) :
    pyTrunc ((a : ℚ) / 255 * ((M : ℚ) - (m : ℚ)) + (m : ℚ)) =
      (a * (M - m) + 255 * m) / 255 := by
  have he : (a : ℚ) / 255 * ((M : ℚ) - (m : ℚ)) + (m : ℚ) =
      ((a * (M - m) + 255 * m : Int) : ℚ) / ((255 : ℕ) : ℚ) := by
    push_cast
    ring
  rw [he, pyTrunc_intCast_div_natCast _ _ h]
  norm_num

/-- Evaluation of `RGB.scale` through integer division, for nonnegative
numerators. -/
theorem RGB.scale_eval (c : RGB) (m M : Int)
    (h1 : 0 ≤ c.r * (M - m) + 255 * m) (h2 : 0 ≤ c.g * (M - m) + 255 * m)
    (h3 : 0 ≤ c.b * (M - m) + 255 * m) :
    c.scale m M =
      { r := (c.r * (M - m) + 255 * m) / 255
        g := (c.g * (M - m) + 255 * m) / 255
        b := (c.b * (M - m) + 255 * m) / 255 } := by
  unfold RGB.scale
  rw [pyTrunc_scale_formula _ _ _ h1, pyTrunc_scale_formula _ _ _ h2,
    pyTrunc_scale_formula _ _ _ h3]

/-- Scaling into 0..255 is the identity on colors with nonnegative
channels: `scale` always divides the current channel by 255. -/
theorem RGB.scale_0_255_id (d : RGB) (h1 : 0 ≤ d.r) (h2 : 0 ≤ d.g) (h3 : 0 ≤ d.b) :
    d.scale 0 255 = d := by
  rw [RGB.scale_eval d 0 255 (by nlinarith) (by nlinarith) (by nlinarith)]
  have er : d.r * (255 - 0) + 255 * 0 = d.r * 255 := by ring
  have eg : d.g * (255 - 0) + 255 * 0 = d.g * 255 := by ring
  have eb : d.b * (255 - 0) + 255 * 0 = d.b * 255 := by ring
  rw [er, eg, eb, Int.mul_ediv_cancel _ (by norm_num),
    Int.mul_ediv_cancel _ (by norm_num), Int.mul_ediv_cancel _ (by norm_num)]

example : (RGB.mk 255 128 4).scale 0 63 = ⟨63, 31, 0⟩ := by
  rw [RGB.scale_eval _ _ _ (by norm_num) (by norm_num) (by norm_num)]
  decide

/-! Claim C1: derived on/pressed state of an inbound message. -/

/-- C1, counterexample: the claim "the constructed Message is on iff
intensity > 0" fails at intensity 1: `Message.__init__` tests
`intensity == 127`, so the message is off although 1 > 0. -/
theorem c1_counterexample :
    ¬ (((Midi.Message.make 3 1 0).on = true) ↔ (1 : Int) > 0) := by
  decide

/-- C1, amended: for every intensity in 0..127, the constructed Message
is on if and only if the intensity equals 127. -/
theorem c1_message_on_iff_127 (n intensity : Int) (diff : ℚ)
    (h0 : 0 ≤ intensity) (h1 : intensity ≤ 127) :
    (Midi.Message.make n intensity diff).on = true ↔ intensity = 127 := by
  unfold Midi.Message.make Midi.Message.on
  by_cases h : intensity = 127 <;> simp [h]

/-- C1, witness: instance of the amended claim at intensity 127. -/
theorem c1_witness :
    (0 : Int) ≤ 127 ∧ (127 : Int) ≤ 127 ∧
      ((Midi.Message.make 3 127 0).on = true ↔ (127 : Int) = 127) :=
  ⟨by norm_num, by norm_num, c1_message_on_iff_127 3 127 0 (by norm_num) (by norm_num)⟩

/-! Claim C2: `Button.set_state` re-rendering. -/

/-- C2, evaluation at the failing input: `set_state` does store the new
state and re-renders, and the colors for `on` and `off` are the bound
ones; but in state `err` the source's `Button.led_on` renders
`color_off`, not the bound error color `color_err` (which differs from
`color_off` on this button). -/
theorem c2_set_state_err_renders_color_off :
    (bErr.set_state ButtonState.err).1.state = ButtonState.err ∧
    (bErr.set_state ButtonState.err).2 = [Op.ledOn 0 bErr.color_off] ∧
    bErr.color_off ≠ bErr.color_err ∧
    (bErr.set_state ButtonState.on).2 = [Op.ledOn 0 bErr.color_on] ∧
    (bErr.set_state ButtonState.off).2 = [Op.ledOn 0 bErr.color_off] :=
  ⟨rfl, rfl, by decide, rfl, rfl⟩

/-! Claim C5: Classic flat-index range errors. -/

/-- C5, counterexample: the claim "led_on raises for every flat index
n > 120" fails at n = 200: the Classic variant sends an automap
control-change message for 200..207 instead of raising. -/
theorem c5_counterexample :
    Classic.led_on { r := 255 } (some 200) none none = Except.ok [Op.send 176 104 3] ∧
      (120 : Int) < 200 :=
  ⟨rfl, by norm_num⟩

/-- C5, amended: the Classic `led_on` raises `LEDSelectionError` for a
flat index `n` with `n < 0` or `n > 120` unless 200 ≤ n ≤ 207 (the
automap row, which is sent as a control change), and also when neither
`n` nor both `x` and `y` are supplied. -/
theorem c5_classic_flat_range (color : RGB) (n x y : Int) :
    ((n < 0 ∨ 120 < n) → ¬(199 < n ∧ n < 208) →
      Classic.led_on color (some n) none none = Except.error ⟨some n, none, none⟩) ∧
    Classic.led_on color none none none = Except.error ⟨none, none, none⟩ ∧
    Classic.led_on color none (some x) none = Except.error ⟨none, some x, none⟩ ∧
    Classic.led_on color none none (some y) = Except.error ⟨none, none, some y⟩ := by
  refine ⟨fun h1 h2 => ?_, rfl, rfl, rfl⟩
  simp only [Classic.led_on]
  rw [if_neg h2, if_pos (by omega)]

/-- C5, witness: instance of the amended claim at n = 150 (raises) and at
the missing-coordinate calls. -/
theorem c5_witness :
    ((150 : Int) < 0 ∨ (120 : Int) < 150) ∧ ¬((199 : Int) < 150 ∧ (150 : Int) < 208) ∧
      Classic.led_on { r := 255 } (some 150) none none =
        Except.error ⟨some 150, none, none⟩ ∧
      Classic.led_on { r := 255 } none none none = Except.error ⟨none, none, none⟩ :=
  ⟨by norm_num, by norm_num,
    (c5_classic_flat_range { r := 255 } 150 0 0).1 (by norm_num) (by norm_num),
    (c5_classic_flat_range { r := 255 } 150 0 0).2.1⟩

/-! Claim C4: Pro and MiniMk3 coordinate addressing. -/

/-- C4: for the Pro and MiniMk3 variants, `led_on` with coordinates x, y
each in 0..9 (and no flat index) emits exactly one sysex message whose
LED address byte is `90 - 10*y + x`; coordinates outside 0..9, and calls
supplying neither `n` nor both `x` and `y`, raise `LEDSelectionError`
with nothing emitted. -/
theorem c4_pro_mk3_xy (c : RGB) (x y : Int) :
    (0 ≤ x → x ≤ 9 → 0 ≤ y → y ≤ 9 →
      Pro.led_on c none (some x) (some y) =
        Except.ok [Op.sysex [0, 32, 41, 2, 16, 11, 90 - 10 * y + x,
          (c.scale 0 63).r, (c.scale 0 63).g, (c.scale 0 63).b]] ∧
      MiniMk3.led_on c none (some x) (some y) =
        Except.ok [Op.sysex [0, 32, 41, 2, 13, 3, 3, 90 - 10 * y + x,
          (c.scale 0 63).r, (c.scale 0 63).g, (c.scale 0 63).b]]) ∧
    ((x < 0 ∨ 9 < x ∨ y < 0 ∨ 9 < y) →
      Pro.led_on c none (some x) (some y) = Except.error ⟨none, some x, some y⟩ ∧
      MiniMk3.led_on c none (some x) (some y) = Except.error ⟨none, some x, some y⟩) ∧
    (Pro.led_on c none none none = Except.error ⟨none, none, none⟩ ∧
      MiniMk3.led_on c none none none = Except.error ⟨none, none, none⟩ ∧
      Pro.led_on c none (some x) none = Except.error ⟨none, some x, none⟩ ∧
      MiniMk3.led_on c none (some x) none = Except.error ⟨none, some x, none⟩ ∧
      Pro.led_on c none none (some y) = Except.error ⟨none, none, some y⟩ ∧
      MiniMk3.led_on c none none (some y) = Except.error ⟨none, none, some y⟩) := by
  refine ⟨fun hx0 hx9 hy0 hy9 => ⟨?_, ?_⟩, fun h => ⟨?_, ?_⟩, rfl, rfl, rfl, rfl, rfl, rfl⟩
  · simp only [Pro.led_on]
    rw [if_neg (by omega)]
  · simp only [MiniMk3.led_on]
    rw [if_neg (by omega)]
  · simp only [Pro.led_on]
    rw [if_pos (by omega)]
  · simp only [MiniMk3.led_on]
    rw [if_pos (by omega)]

/-- C4, witness: instance at x = 3, y = 2 (address byte 73) and at the
out-of-range coordinate x = 10. -/
theorem c4_witness :
    Pro.led_on { r := 255 } none (some 3) (some 2) =
      Except.ok [Op.sysex [0, 32, 41, 2, 16, 11, 73, 63, 0, 0]] ∧
    MiniMk3.led_on { r := 255 } none (some 3) (some 2) =
      Except.ok [Op.sysex [0, 32, 41, 2, 13, 3, 3, 73, 63, 0, 0]] ∧
    Pro.led_on { r := 255 } none (some 10) (some 0) =
      Except.error ⟨none, some 10, some 0⟩ := by
  have hscale : ({ r := 255 } : RGB).scale 0 63 = { r := 63, g := 0, b := 0 } := by
    rw [RGB.scale_eval _ _ _ (by norm_num) (by norm_num) (by norm_num)]
    norm_num
  have h := c4_pro_mk3_xy { r := 255 } 3 2
  have hok := h.1 (by norm_num) (by norm_num) (by norm_num) (by norm_num)
  have herr := (c4_pro_mk3_xy { r := 255 } 10 0).2.1 (by norm_num)
  refine ⟨?_, ?_, herr.1⟩
  · rw [hok.1, hscale]
    norm_num
  · rw [hok.2, hscale]
    norm_num

/-! Claim C6: scale round-trip. -/

/-- C6, counterexample: the claim "scale(scale(c,0,63),0,255)
approximately recovers c" fails at c = (255,255,255): the round trip
yields (63,63,63), off by 192 per channel, because `scale` always
divides the current channel value by 255 and so `scale(·,0,255)` is the
identity rather than an expansion back to 0..255. -/
theorem c6_counterexample :
    ((RGB.mk 255 255 255).scale 0 63).scale 0 255 = RGB.mk 63 63 63 ∧
      (255 - 63 : Int) = 192 := by
  have e1 : (RGB.mk 255 255 255).scale 0 63 = RGB.mk 63 63 63 := by
    rw [RGB.scale_eval _ _ _ (by norm_num) (by norm_num) (by norm_num)]
    norm_num
  refine ⟨?_, by norm_num⟩
  rw [e1, RGB.scale_0_255_id _ (by norm_num) (by norm_num) (by norm_num)]

/-- C6, amended: for every color with channels in 0..255, re-scaling the
0..63-scaled color by `scale(·,0,255)` returns the 0..63-scaled color
unchanged (the round trip loses the original channel values; it does not
approximately recover them). -/
theorem c6_roundtrip_is_downscale (c : RGB)
    (hr0 : 0 ≤ c.r) (hr1 : c.r ≤ 255) (hg0 : 0 ≤ c.g) (hg1 : c.g ≤ 255)
    (hb0 : 0 ≤ c.b) (hb1 : c.b ≤ 255) :
    (c.scale 0 63).scale 0 255 = c.scale 0 63 := by
  have e := RGB.scale_eval c 0 63 (by nlinarith) (by nlinarith) (by nlinarith)
  apply RGB.scale_0_255_id <;> rw [e] <;>
    exact Int.ediv_nonneg (by nlinarith) (by norm_num)

/-- C6, witness: instance of the amended claim at c = (10, 20, 30). -/
theorem c6_witness :
    (0 : Int) ≤ 10 ∧ (10 : Int) ≤ 255 ∧
      ((RGB.mk 10 20 30).scale 0 63).scale 0 255 = (RGB.mk 10 20 30).scale 0 63 :=
  ⟨by norm_num, by norm_num,
    c6_roundtrip_is_downscale (RGB.mk 10 20 30) (by norm_num) (by norm_num)
      (by norm_num) (by norm_num) (by norm_num) (by norm_num)⟩

/-! Claim C9: events at unbound addresses are ignored. -/

/-- C9: if the event's address is bound to no button of the layout, the
dispatch callback leaves every button (in particular every button state)
unchanged and emits no operation at all. -/
theorem c9_unbound_address_ignored (buttons : List Button) (message : Msg.Message)
    (h : buttons.find? (fun b => b.n == message.n) = none) :
    Layout.callback buttons message = (buttons, []) := by
  unfold Layout.callback
  rw [h]

/-- C9, witness: the spec's example — buttons at addresses 5 and 9, an
event at address 7. -/
theorem c9_witness :
    Layout.callback layoutFix msgClick7 = (layoutFix, []) :=
  c9_unbound_address_ignored layoutFix msgClick7 rfl

/-! Claim C3: non-empty text results trigger scroll then reset. -/

/-- C3, counterexample: the claim quantifies over every result with a
non-empty text string, but when the result also carries a char (as
`resCharText` does: char "A", text "HI"), the callback takes the char
branch: the emitted trace contains no scroll-render operation at all. -/
theorem c3_counterexample :
    bCharText.exec msgClick5 = some resCharText ∧
    resCharText.text = some "HI".toList ∧ ("HI".toList).isEmpty = false ∧
    (Layout.callback layoutCharFix msgClick5).2.all (fun op => !op.isWriteString) = true := by
  refine ⟨rfl, rfl, rfl, ?_⟩
  rfl

/-- C3, amended: for a dispatched event whose bound action returns a
result with no char and a non-empty text string, the callback emits the
full scroll-render of that text first, then the full board reset: the
all-LEDs-off write followed by one LED write per button with the color
of its pre-existing state, and no button's state changes (the button
list is returned unchanged). -/
theorem c3_text_scroll_then_reset (buttons : List Button) (message : Msg.Message)
    (b : Button) (r : Result) (t : List Char)
    (hfind : buttons.find? (fun x => x.n == message.n) = some b)
    (hact : b.action = message.action)
    (hexec : b.exec message = some r)
    (hchar : r.char = none) (htext : r.text = some t) (ht : t.isEmpty = false) :
    Layout.callback buttons message =
      (buttons, Op.writeString t r.color r.scroll r.wait_ms ::
        Op.ledAllOff :: buttons.flatMap Button.ledOnOps) := by
  unfold Layout.callback
  rw [hfind]
  simp only [hact, beq_self_eq_true, if_true, hexec, hchar, htext, ht]
  unfold Layout.reset
  simp

/-- C3, witness: instance of the amended claim on `layoutFix` (button 5
on, button 9 off) and the click at address 5 returning text "HI". -/
theorem c3_witness :
    bText.exec msgClick5 = some resText ∧
    Layout.callback layoutFix msgClick5 =
      (layoutFix, Op.writeString "HI".toList resText.color resText.scroll resText.wait_ms ::
        Op.ledAllOff :: layoutFix.flatMap Button.ledOnOps) :=
  ⟨rfl, c3_text_scroll_then_reset layoutFix msgClick5 bText resText "HI".toList
    rfl rfl rfl rfl rfl rfl⟩

/-! Claim C8: `flush()` and the worker. -/

/-- Helper invariant for the `InputDevice` model: a message that is not
in either queue, is not held by the worker, and never arrives again, is
never delivered nor read in any continuation of the run. -/
theorem prun_count_preserved (m : Int) (evs : List Ev) (s : PState)
    (hhold : s.hold ≠ some m) (hcq : m ∉ s.cq) (hmq : m ∉ s.mq)
    (hre : Ev.arrive m ∉ evs) :
    (prun s evs).delivered.count m = s.delivered.count m ∧
    (prun s evs).readMsgs.count m = s.readMsgs.count m := by
  induction evs generalizing s with
  | nil => exact ⟨rfl, rfl⟩
  | cons e rest ih =>
    have hre' : Ev.arrive m ∉ rest := fun h => hre (List.mem_cons_of_mem _ h)
    have hstep : (pstep s e).delivered.count m = s.delivered.count m ∧
        (pstep s e).readMsgs.count m = s.readMsgs.count m ∧
        (pstep s e).hold ≠ some m ∧ m ∉ (pstep s e).cq ∧ m ∉ (pstep s e).mq := by
      cases e with
      | arrive m' =>
          have hne : m' ≠ m := fun h => hre (by rw [h]; exact List.mem_cons_self _ _)
          refine ⟨rfl, rfl, hhold, ?_, ?_⟩
          · intro hmem
            rcases List.mem_append.mp hmem with h | h
            · exact hcq h
            · exact hne (List.mem_singleton.mp h).symm
          · intro hmem
            rcases List.mem_append.mp hmem with h | h
            · exact hmq h
            · exact hne (List.mem_singleton.mp h).symm
      | take =>
          rcases h1 : s.hold with _ | m''
          · rcases h2 : s.cq with _ | ⟨m', rest'⟩
            · have hs : pstep s Ev.take = s := by simp [pstep, h1, h2]
              rw [hs]
              exact ⟨rfl, rfl, hhold, hcq, hmq⟩
            · have hm' : m' ≠ m := fun h => hcq (h ▸ h2 ▸ List.mem_cons_self _ _)
              have hs : pstep s Ev.take = { s with hold := some m', cq := rest' } := by
                simp [pstep, h1, h2]
              rw [hs]
              refine ⟨rfl, rfl, ?_, ?_, hmq⟩
              · intro h
                exact hm' (Option.some_injective _ h)
              · intro h
                exact hcq (h2 ▸ List.mem_cons_of_mem _ h)
          · have hs : pstep s Ev.take = s := by simp [pstep, h1]
            rw [hs]
            exact ⟨rfl, rfl, hhold, hcq, hmq⟩
      | deliver =>
          rcases h1 : s.hold with _ | m'
          · have hs : pstep s Ev.deliver = s := by simp [pstep, h1]
            rw [hs]
            exact ⟨rfl, rfl, hhold, hcq, hmq⟩
          · have hm' : m' ≠ m := fun h => hhold (h ▸ h1)
            have hs : pstep s Ev.deliver =
                { s with hold := none, delivered := s.delivered ++ [m'] } := by
              simp [pstep, h1]
            rw [hs]
            refine ⟨?_, rfl, by simp, hcq, hmq⟩
            simp [List.count_append, List.count_cons, hm']
      | flushq =>
          exact ⟨rfl, rfl, hhold, List.not_mem_nil m, List.not_mem_nil m⟩
      | consume =>
          rcases h1 : s.mq with _ | ⟨m', rest'⟩
          · have hs : pstep s Ev.consume = s := by simp [pstep, h1]
            rw [hs]
            exact ⟨rfl, rfl, hhold, hcq, hmq⟩
          · have hm' : m' ≠ m := fun h => hmq (h ▸ h1 ▸ List.mem_cons_self _ _)
            have hs : pstep s Ev.consume =
                { s with mq := rest', readMsgs := s.readMsgs ++ [m'] } := by
              simp [pstep, h1]
            rw [hs]
            refine ⟨rfl, ?_, hhold, hcq, ?_⟩
            · simp [List.count_append, List.count_cons, hm']
            · intro h
              exact hmq (h1 ▸ List.mem_cons_of_mem _ h)
    have hmain := ih (pstep s e) hstep.2.2.1 hstep.2.2.2.1 hstep.2.2.2.2 hre'
    have hfold : prun s (e :: rest) = prun (pstep s e) rest := rfl
    rw [hfold]
    exact ⟨hmain.1.trans hstep.1, hmain.2.trans hstep.2.1⟩

/-- C8, counterexample: the claim "no message enqueued before the flush,
including any message mid-decode at the time of the call, is ever
delivered afterwards" fails: message 5 arrives, the worker takes it off
the callback queue (mid-decode), `flush()` runs — and the worker still
delivers 5 afterwards, because `InputDevice.flush` only clears the two
queues and cannot reach the message the worker already dequeued. -/
theorem c8_counterexample :
    (prun {} [Ev.arrive 5, Ev.take]).hold = some 5 ∧
    (prun {} [Ev.arrive 5, Ev.take, Ev.flushq]).delivered = [] ∧
    (prun {} [Ev.arrive 5, Ev.take, Ev.flushq, Ev.deliver]).delivered = [5] :=
  ⟨rfl, rfl, rfl⟩

/-- C8, amended: a message still sitting in the queues when `flush()`
clears them (so, one the worker is not currently holding) and not
re-enqueued later is never delivered to a callback nor returned by
`read()` in the rest of the run; only a message the worker had already
dequeued can still come through. -/
theorem c8_flush_discards_queued (s : PState) (m : Int) (evs : List Ev)
    (hhold : s.hold ≠ some m) (hre : Ev.arrive m ∉ evs) :
    (prun (pstep s Ev.flushq) evs).delivered.count m = s.delivered.count m ∧
    (prun (pstep s Ev.flushq) evs).readMsgs.count m = s.readMsgs.count m :=
  prun_count_preserved m evs (pstep s Ev.flushq) hhold (List.not_mem_nil m)
    (List.not_mem_nil m) hre

/-- C8, witness: message 5 is queued (not held) when the flush happens;
it is never delivered nor read afterwards, although the run goes on. -/
theorem c8_witness :
    ((prun {} [Ev.arrive 3, Ev.arrive 5, Ev.take]).hold ≠ some 5) ∧
    Ev.arrive 5 ∉ [Ev.take, Ev.deliver, Ev.arrive 4, Ev.take, Ev.deliver, Ev.consume] ∧
    (prun (pstep (prun {} [Ev.arrive 3, Ev.arrive 5, Ev.take]) Ev.flushq)
        [Ev.take, Ev.deliver, Ev.arrive 4, Ev.take, Ev.deliver, Ev.consume]).delivered.count 5 =
      (prun {} [Ev.arrive 3, Ev.arrive 5, Ev.take]).delivered.count 5 :=
  ⟨by decide, by decide,
    (c8_flush_discards_queued (prun {} [Ev.arrive 3, Ev.arrive 5, Ev.take]) 5
      [Ev.take, Ev.deliver, Ev.arrive 4, Ev.take, Ev.deliver, Ev.consume]
      (by decide) (by decide)).1⟩

/-! Helper lemmas for hex-string parsing. -/

/-- A hex digit has one of the 22 hexdigit code points. -/
theorem hex_toNat_cases {c : Char} (h : isPyHexDigit c = true) :
    c.toNat = 48 ∨ c.toNat = 49 ∨ c.toNat = 50 ∨ c.toNat = 51 ∨ c.toNat = 52 ∨
    c.toNat = 53 ∨ c.toNat = 54 ∨ c.toNat = 55 ∨ c.toNat = 56 ∨ c.toNat = 57 ∨
    c.toNat = 97 ∨ c.toNat = 98 ∨ c.toNat = 99 ∨ c.toNat = 100 ∨ c.toNat = 101 ∨
    c.toNat = 102 ∨ c.toNat = 65 ∨ c.toNat = 66 ∨ c.toNat = 67 ∨ c.toNat = 68 ∨
    c.toNat = 69 ∨ c.toNat = 70 := by
  simp only [isPyHexDigit, Bool.or_eq_true, Bool.and_eq_true, decide_eq_true_eq] at h
  omega

/-- Hex digits are not whitespace. -/
theorem hex_not_space {c : Char} (h : isPyHexDigit c = true) : isPySpace c = false := by
  cases hb : isPySpace c
  · rfl
  · exfalso
    simp only [isPyHexDigit, Bool.or_eq_true, Bool.and_eq_true, decide_eq_true_eq] at h
    simp only [isPySpace, Bool.or_eq_true, Bool.and_eq_true, decide_eq_true_eq,
      beq_iff_eq] at hb
    omega

/-- Upper/lower casing keeps hex digits hex and does not change their
value. -/
theorem hexVal_case {c : Char} (h : isPyHexDigit c = true) :
    isPyHexDigit c.toUpper = true ∧ isPyHexDigit c.toLower = true ∧
      hexVal c.toUpper = hexVal c.toLower := by
  have hc : c = Char.ofNat c.toNat := (Char.ofNat_toNat c).symm
  rcases hex_toNat_cases h with hv | hv | hv | hv | hv | hv | hv | hv | hv | hv | hv |
    hv | hv | hv | hv | hv | hv | hv | hv | hv | hv | hv <;>
    rw [hv] at hc <;> subst hc <;> exact ⟨rfl, rfl, rfl⟩

/-- A list of hex digits contains no whitespace. -/
theorem no_space_of_all_hex {l : List Char} (h : l.all isPyHexDigit = true) :
    ∀ d ∈ l, isPySpace d = false :=
  fun d hd => hex_not_space (List.all_eq_true.mp h d hd)

/-- The function `List.dropWhile` swallows a prefix on which the predicate holds. -/
theorem dropWhile_append_of_all {p : Char → Bool} {l1 l2 : List Char}
    (h : ∀ d ∈ l1, p d = true) : (l1 ++ l2).dropWhile p = l2.dropWhile p := by
  induction l1 with
  | nil => rfl
  | cons a t ih =>
      rw [List.cons_append, List.dropWhile_cons, if_pos (h a (List.mem_cons_self a t))]
      exact ih fun d hd => h d (List.mem_cons_of_mem a hd)

/-- The function `List.dropWhile` is the identity on a list where the predicate fails
everywhere. -/
theorem dropWhile_eq_self_of_all {p : Char → Bool} {l : List Char}
    (h : ∀ d ∈ l, p d = false) : l.dropWhile p = l := by
  cases l with
  | nil => rfl
  | cons a t => rw [List.dropWhile_cons, if_neg (by simp [h a (List.mem_cons_self a t)])]

/-- Stripping is the identity on whitespace-free strings. -/
theorem pyStrip_eq_self_of_no_space {l : List Char}
    (h : ∀ d ∈ l, isPySpace d = false) : pyStrip l = l := by
  unfold pyStrip
  rw [dropWhile_eq_self_of_all h,
    dropWhile_eq_self_of_all fun d hd => h d (List.mem_reverse.mp hd),
    List.reverse_reverse]

/-- Stripping removes whitespace padding around a whitespace-free,
nonempty core. -/
theorem pyStrip_pad {ws1 s ws2 : List Char}
    (hws1 : ∀ d ∈ ws1, isPySpace d = true) (hws2 : ∀ d ∈ ws2, isPySpace d = true)
    (hs : ∀ d ∈ s, isPySpace d = false) (hne : s ≠ []) :
    pyStrip (ws1 ++ s ++ ws2) = s := by
  obtain ⟨a, t, rfl⟩ : ∃ a t, s = a :: t := by
    cases s with
    | nil => exact absurd rfl hne
    | cons a t => exact ⟨a, t, rfl⟩
  unfold pyStrip
  rw [List.append_assoc, dropWhile_append_of_all hws1, List.cons_append,
    List.dropWhile_cons, if_neg (by simp [hs a (List.mem_cons_self a t)]),
    ← List.cons_append, List.reverse_append,
    dropWhile_append_of_all fun d hd => hws2 d (List.mem_reverse.mp hd),
    dropWhile_eq_self_of_all fun d hd => hs d (List.mem_reverse.mp hd),
    List.reverse_reverse]

/-- Parsing only looks at the stripped string. -/
theorem parse_eq_of_strip_eq {s1 s2 : List Char} (h : pyStrip s1 = pyStrip s2) :
    RGB.parse s1 = RGB.parse s2 := by
  unfold RGB.parse checkColorString
  rw [h]

/-- A list of length 6 is an explicit 6-tuple. -/
theorem exists_six {l : List Char} (h : l.length = 6) :
    ∃ d1 d2 d3 d4 d5 d6, l = [d1, d2, d3, d4, d5, d6] := by
  rcases l with _ | ⟨a, l⟩
  · simp at h
  rcases l with _ | ⟨b, l⟩
  · simp at h
  rcases l with _ | ⟨c, l⟩
  · simp at h
  rcases l with _ | ⟨d, l⟩
  · simp at h
  rcases l with _ | ⟨e, l⟩
  · simp at h
  rcases l with _ | ⟨f, l⟩
  · simp at h
  rcases l with _ | ⟨g, l⟩
  · exact ⟨a, b, c, d, e, f, rfl⟩
  · simp at h

/-- Value of `RGB.parse` on a well-formed input given by its digits. -/
theorem parse_explicit (s : List Char) (d1 d2 d3 d4 d5 d6 : Char)
    (hall : [d1, d2, d3, d4, d5, d6].all isPyHexDigit = true)
    (hs : pyStrip s = [d1, d2, d3, d4, d5, d6] ∨
      pyStrip s = '#' :: [d1, d2, d3, d4, d5, d6]) :
    RGB.parse s = Except.ok
      { r := 16 * hexVal d1 + hexVal d2
        g := 16 * hexVal d3 + hexVal d4
        b := 16 * hexVal d5 + hexVal d6 } := by
  unfold RGB.parse checkColorString
  rcases hs with h | h <;> rw [h] <;> simp [hall, hexByte]

/-- Success of `checkColorString` coincides with the spec's
well-formedness condition on the stripped string. -/
theorem check_isOk_iff (s : List Char) :
    exceptIsOk (checkColorString s) = true ↔ SpecHexForm (pyStrip s) := by
  unfold checkColorString
  by_cases h1 : ((pyStrip s).length == 7 && ((pyStrip s).headD ' ' == '#') &&
      ((pyStrip s).drop 1).all isPyHexDigit) = true
  · rw [if_pos h1]
    simp only [exceptIsOk, true_iff]
    simp only [Bool.and_eq_true, beq_iff_eq] at h1
    obtain ⟨⟨hlen, hhead⟩, hall⟩ := h1
    obtain ⟨a, t, he⟩ : ∃ a t, pyStrip s = a :: t := by
      cases hx : pyStrip s with
      | nil => rw [hx] at hlen; simp at hlen
      | cons a t => exact ⟨a, t, rfl⟩
    rw [he] at hlen hhead hall ⊢
    right
    refine ⟨t, by rw [List.headD_cons] at hhead; rw [hhead], ?_, ?_⟩
    · simpa using hlen
    · simpa using List.all_eq_true.mp hall
  · rw [if_neg h1]
    by_cases h2 : ((pyStrip s).length == 6 && (pyStrip s).all isPyHexDigit) = true
    · rw [if_pos h2]
      simp only [exceptIsOk, true_iff]
      simp only [Bool.and_eq_true, beq_iff_eq] at h2
      exact Or.inl ⟨h2.1, List.all_eq_true.mp h2.2⟩
    · rw [if_neg h2]
      simp only [exceptIsOk, Bool.false_eq_true, false_iff]
      rintro (⟨hl, hall⟩ | ⟨rest, hr, hl, hall⟩)
      · exact h2 (by simp [hl, List.all_eq_true]; exact hall)
      · apply h1
        rw [hr]
        simp [hl, List.all_eq_true]
        exact hall

/-- Success of `RGB.parse` coincides with success of the check. -/
theorem parse_isOk_eq (s : List Char) :
    exceptIsOk (RGB.parse s) = exceptIsOk (checkColorString s) := by
  unfold RGB.parse
  cases h : checkColorString s <;> rfl

/-! Claim C7: `RGB.parse` fails exactly on malformed input. -/

/-- C7: parsing fails if and only if the stripped string is neither six
hex digits nor '#' followed by six hex digits; on well-formed input the
returned channels are the three parsed hex byte pairs. -/
theorem c7_parse_correct (s : List Char) :
    (exceptIsOk (RGB.parse s) = true ↔ SpecHexForm (pyStrip s)) ∧
    (∀ d1 d2 d3 d4 d5 d6 : Char,
      [d1, d2, d3, d4, d5, d6].all isPyHexDigit = true →
      (pyStrip s = [d1, d2, d3, d4, d5, d6] ∨
        pyStrip s = '#' :: [d1, d2, d3, d4, d5, d6]) →
      RGB.parse s = Except.ok
        { r := 16 * hexVal d1 + hexVal d2
          g := 16 * hexVal d3 + hexVal d4
          b := 16 * hexVal d5 + hexVal d6 }) := by
  constructor
  · rw [parse_isOk_eq]
    exact check_isOk_iff s
  · intro d1 d2 d3 d4 d5 d6 hall hs
    exact parse_explicit s d1 d2 d3 d4 d5 d6 hall hs

/-- C7, witness: a successful parse of " #A1b2C3 " through the theorem,
and a failing parse of a malformed string. -/
theorem c7_witness :
    RGB.parse " #A1b2C3 ".toList = Except.ok { r := 161, g := 178, b := 195 } ∧
    exceptIsOk (RGB.parse "#A1b2C".toList) = false ∧
    exceptIsOk (RGB.parse "A1b2G3".toList) = false := by
  refine ⟨?_, rfl, rfl⟩
  have h := (c7_parse_correct (" #A1b2C3 ".toList)).2 'A' '1' 'b' '2' 'C' '3'
    (by decide) (Or.inr (by decide))
  rw [h]
  rfl

/-! Claim C10: `RGB.parse` is invariant under padding and case. -/

/-- C10: for a well-formed hex color string, parsing is unchanged by
whitespace padding, and parsing the upper-cased string agrees with
parsing the lower-cased string. -/
theorem c10_parse_invariance (s ws1 ws2 : List Char)
    (hgood : SpecHexForm s)
    (hws1 : ∀ d ∈ ws1, isPySpace d = true) (hws2 : ∀ d ∈ ws2, isPySpace d = true) :
    RGB.parse (ws1 ++ s ++ ws2) = RGB.parse s ∧
    RGB.parse (s.map Char.toUpper) = RGB.parse (s.map Char.toLower) := by
  have hns : ∀ d ∈ s, isPySpace d = false := by
    rcases hgood with ⟨hl, hall⟩ | ⟨rest, hr, hl, hall⟩
    · exact fun d hd => hex_not_space (hall d hd)
    · intro d hd
      rw [hr] at hd
      rcases List.mem_cons.mp hd with rfl | hd
      · rfl
      · exact hex_not_space (hall d hd)
  have hne : s ≠ [] := by
    rcases hgood with ⟨hl, _⟩ | ⟨rest, hr, _, _⟩
    · intro h
      rw [h] at hl
      simp at hl
    · rw [hr]
      simp
  constructor
  · exact parse_eq_of_strip_eq
      ((pyStrip_pad hws1 hws2 hns hne).trans (pyStrip_eq_self_of_no_space hns).symm)
  · rcases hgood with ⟨hl, hall⟩ | ⟨rest, hr, hl, hall⟩
    · obtain ⟨d1, d2, d3, d4, d5, d6, rfl⟩ := exists_six hl
      obtain ⟨u1, u2, u3⟩ := hexVal_case (hall d1 (by simp))
      obtain ⟨v1, v2, v3⟩ := hexVal_case (hall d2 (by simp))
      obtain ⟨w1, w2, w3⟩ := hexVal_case (hall d3 (by simp))
      obtain ⟨x1, x2, x3⟩ := hexVal_case (hall d4 (by simp))
      obtain ⟨y1, y2, y3⟩ := hexVal_case (hall d5 (by simp))
      obtain ⟨z1, z2, z3⟩ := hexVal_case (hall d6 (by simp))
      have hallU : [d1.toUpper, d2.toUpper, d3.toUpper, d4.toUpper, d5.toUpper,
          d6.toUpper].all isPyHexDigit = true := by
        simp [List.all_eq_true]
        refine ⟨u1, v1, w1, x1, y1, z1⟩
      have hallL : [d1.toLower, d2.toLower, d3.toLower, d4.toLower, d5.toLower,
          d6.toLower].all isPyHexDigit = true := by
        simp [List.all_eq_true]
        refine ⟨u2, v2, w2, x2, y2, z2⟩
      have hU := parse_explicit _ _ _ _ _ _ _ hallU
        (Or.inl (pyStrip_eq_self_of_no_space (no_space_of_all_hex hallU)))
      have hL := parse_explicit _ _ _ _ _ _ _ hallL
        (Or.inl (pyStrip_eq_self_of_no_space (no_space_of_all_hex hallL)))
      simp only [List.map_cons, List.map_nil]
      rw [hU, hL, u3, v3, w3, x3, y3, z3]
    · obtain ⟨d1, d2, d3, d4, d5, d6, hrest⟩ := exists_six hl
      rw [hr, hrest]
      rw [hrest] at hall
      obtain ⟨u1, u2, u3⟩ := hexVal_case (hall d1 (by simp))
      obtain ⟨v1, v2, v3⟩ := hexVal_case (hall d2 (by simp))
      obtain ⟨w1, w2, w3⟩ := hexVal_case (hall d3 (by simp))
      obtain ⟨x1, x2, x3⟩ := hexVal_case (hall d4 (by simp))
      obtain ⟨y1, y2, y3⟩ := hexVal_case (hall d5 (by simp))
      obtain ⟨z1, z2, z3⟩ := hexVal_case (hall d6 (by simp))
      have hallU : [d1.toUpper, d2.toUpper, d3.toUpper, d4.toUpper, d5.toUpper,
          d6.toUpper].all isPyHexDigit = true := by
        simp [List.all_eq_true]
        refine ⟨u1, v1, w1, x1, y1, z1⟩
      have hallL : [d1.toLower, d2.toLower, d3.toLower, d4.toLower, d5.toLower,
          d6.toLower].all isPyHexDigit = true := by
        simp [List.all_eq_true]
        refine ⟨u2, v2, w2, x2, y2, z2⟩
      have hnsU : ∀ d ∈ '#' :: [d1.toUpper, d2.toUpper, d3.toUpper, d4.toUpper,
          d5.toUpper, d6.toUpper], isPySpace d = false := by
        intro d hd
        rcases List.mem_cons.mp hd with rfl | hd
        · rfl
        · exact no_space_of_all_hex hallU d hd
      have hnsL : ∀ d ∈ '#' :: [d1.toLower, d2.toLower, d3.toLower, d4.toLower,
          d5.toLower, d6.toLower], isPySpace d = false := by
        intro d hd
        rcases List.mem_cons.mp hd with rfl | hd
        · rfl
        · exact no_space_of_all_hex hallL d hd
      have hU := parse_explicit ('#' :: [d1.toUpper, d2.toUpper, d3.toUpper,
          d4.toUpper, d5.toUpper, d6.toUpper]) _ _ _ _ _ _ hallU
        (Or.inr (pyStrip_eq_self_of_no_space hnsU))
      have hL := parse_explicit ('#' :: [d1.toLower, d2.toLower, d3.toLower,
          d4.toLower, d5.toLower, d6.toLower]) _ _ _ _ _ _ hallL
        (Or.inr (pyStrip_eq_self_of_no_space hnsL))
      simp only [List.map_cons, List.map_nil]
      have hhash : Char.toUpper '#' = '#' := rfl
      have hhashL : Char.toLower '#' = '#' := rfl
      rw [hhash, hhashL, hU, hL, u3, v3, w3, x3, y3, z3]

/-- C10, witness: instance at s = "#A1b2C3" padded by a space and a tab. -/
theorem c10_witness :
    RGB.parse (" ".toList ++ "#A1b2C3".toList ++ "\t".toList) =
      RGB.parse "#A1b2C3".toList ∧
    RGB.parse ("#A1b2C3".toList.map Char.toUpper) =
      RGB.parse ("#A1b2C3".toList.map Char.toLower) :=
  c10_parse_invariance "#A1b2C3".toList " ".toList "\t".toList
    (Or.inr ⟨"A1b2C3".toList, rfl, rfl, by decide⟩) (by decide) (by decide)
